import Mathlib

/-!
Shallow embedding of the mood-analytics module of the vyze repository
(`src/dashboard/views.py` and `src/dashboard/api.py`).

Conventions used throughout:
* Python numbers are modelled as rationals (`ℚ`); mood values are the
  integers 1..10 carried in `ℚ`.
* Python `round(x, 1)` (round-half-to-even, one decimal) is `round1`.
* A Python division that can raise `ZeroDivisionError` is modelled with
  `qdiv?`, which returns `none` exactly when the divisor is zero.
  Divisions whose divisor is syntactically a guarded non-zero quantity
  are modelled with ordinary `ℚ` division.
* Database query results are modelled as lists passed explicitly: a
  user's mood history is the chronological list of mood values, a user's
  entry days are a list of integers (day numbers), achievements are a
  list of records.
-/

namespace Vyze

/-- Round-half-to-even to the nearest integer, as Python `round` does on an
exactly represented value. -/
def roundHalfEven (q : ℚ) : ℤ :=
  let f := ⌊q⌋
  let r := q - (f : ℚ)
  if r < 1/2 then f
  else if 1/2 < r then f + 1
  else if f % 2 = 0 then f else f + 1

/-- Python `round(x, 1)`: round to one decimal place. -/
def round1 (q : ℚ) : ℚ := (roundHalfEven (10 * q) : ℚ) / 10

/-- Python division: `none` models a raised `ZeroDivisionError`. -/
def qdiv? (a b : ℚ) : Option ℚ := if b = 0 then none else some (a / b)

/-- `sum(x_values)` for `x_values = list(range(n))`. -/
def sum_x (n : ℕ) : ℚ := ((List.range n).map (fun (i : ℕ) => (i : ℚ))).sum

/-- `sum(x * x for x in x_values)` for `x_values = list(range(n))`. -/
def sum_xx (n : ℕ) : ℚ := ((List.range n).map (fun (i : ℕ) => (i : ℚ) * i)).sum

/-- The denominator `n * sum_xx - sum_x * sum_x` of the closed-form OLS
slope in `predict_next_mood` (src/dashboard/views.py). -/
def olsDenom (n : ℕ) : ℚ := n * sum_xx n - sum_x n * sum_x n

/-- `predict_next_mood(mood_values)` from src/dashboard/views.py.
With fewer than 3 points it returns the plain mean (unguarded division:
on the empty list Python raises `ZeroDivisionError`, i.e. `none` here);
otherwise it fits a least-squares line against the indices 0..n-1,
predicts index n, rounds to one decimal and clamps to [1, 10]. -/
def predict_next_mood (mood_values : List ℚ) : Option ℚ :=
  if mood_values.length < 3 then
    qdiv? mood_values.sum mood_values.length
  else
    let n : ℕ := mood_values.length
    let sum_y := mood_values.sum
    let sum_xy := ((List.zip (List.range n) mood_values).map
      (fun p => (p.1 : ℚ) * p.2)).sum
    match qdiv? (n * sum_xy - sum_x n * sum_y) (olsDenom n) with
    | none => none
    | some slope =>
      match qdiv? (sum_y - slope * sum_x n) n with
      | none => none
      | some intercept =>
        some (max 1 (min 10 (round1 (slope * n + intercept))))

/-- `calculate_prediction_confidence(mood_values)` from
src/dashboard/views.py.  The source compares `std_dev = variance ** 0.5`
against 1 and 2; since `ℚ` has no square root and the variance is
non-negative, the comparisons are carried out on the variance against
1 and 4, which is equivalent. -/
def calculate_prediction_confidence (mood_values : List ℚ) : String :=
  if mood_values.length < 5 then "Low"
  else
    let mean := mood_values.sum / (mood_values.length : ℚ)
    let variance := (mood_values.map (fun x => (x - mean) ^ 2)).sum / (mood_values.length : ℚ)
    if variance < 1 then "High"
    else if variance < 4 then "Medium"
    else "Low"

/-- The result record of a trend analysis.  The Python functions return
dicts whose key sets differ between branches and between the dashboard
variant (src/dashboard/views.py) and the JSON API variant
(src/dashboard/api.py); a key absent from the returned dict is `none`. -/
structure TrendResult where
  trend : String
  mood_level : Option String
  avg_mood : Option ℚ
  message : String
  additional_message : Option String
  recommendations : Option (List String)
  data_points : Option ℕ
deriving DecidableEq, Repr

/-- The trend slope computed inside `analyze_mood_trends`
(src/dashboard/views.py lines 510-534, identically in
src/dashboard/api.py): with at least 3 chronological values, mean of the
second half minus mean of the first half, where the first half is the
first `len // 2` values; fewer than 3 values give slope 0.
`avg_mood` is passed in because the source falls back to it for an empty
half (unreachable when the length is at least 3). -/
def trend_slope (moods : List ℚ) (avg_mood : ℚ) : ℚ :=
  if 3 ≤ moods.length then
    if 1 < moods.length then
      let first_half := moods.take (moods.length / 2)
      let second_half := moods.drop (moods.length / 2)
      let first_avg :=
        if first_half ≠ [] then first_half.sum / (first_half.length : ℚ) else avg_mood
      let second_avg :=
        if second_half ≠ [] then second_half.sum / (second_half.length : ℚ) else avg_mood
      second_avg - first_avg
    else 0
  else 0

/-- `analyze_mood_trends(user)` from src/dashboard/views.py, as a function
of the chronological list of mood values of the last 30 days. -/
def analyze_mood_trends (moods : List ℚ) : TrendResult :=
  if moods = [] then
    { trend := "neutral"
      mood_level := none
      avg_mood := none
      message := "Start logging your mood to get personalized insights!"
      additional_message := none
      recommendations := some ["Log your daily mood", "Write in your journal",
        "Try breathing exercises"]
      data_points := none }
  else
    let avg_mood := moods.sum / (moods.length : ℚ)
    let slope := trend_slope moods avg_mood
    let tmr : String × String × List String :=
      if slope > 1/2 then
        ("improving", "Your mood has been trending upward! Keep up the great work.",
          ["Continue your current wellness routine",
           "Consider sharing your progress with your doctor",
           "Try new activities that bring you joy"])
      else if slope < -(1/2) then
        ("declining", "Your mood has been trending downward. Consider reaching out for support.",
          ["Practice deep breathing exercises",
           "Reach out to your assigned doctor",
           "Try mindfulness activities",
           "Consider professional counseling if needed"])
      else
        ("stable", "Your mood has been relatively stable. This is a good foundation to build upon.",
          ["Maintain your current routine",
           "Try new wellness activities",
           "Continue journaling your thoughts",
           "Stay connected with your support network"])
    let lvl : String × String :=
      if 8 ≤ avg_mood then
        ("excellent", "You\x27re doing exceptionally well! Consider how you can maintain this positive state.")
      else if 6 ≤ avg_mood then
        ("good", "You\x27re in a good place. Small improvements can make a big difference.")
      else if 4 ≤ avg_mood then
        ("moderate", "There\x27s room for improvement. Focus on self-care and professional support.")
      else
        ("needs_attention", "Consider reaching out to mental health professionals for additional support.")
    { trend := tmr.1
      mood_level := some lvl.1
      avg_mood := some (round1 avg_mood)
      message := tmr.2.1
      additional_message := some lvl.2
      recommendations := some tmr.2.2
      data_points := some moods.length }

/-- `analyze_mood_trends(user)` from src/dashboard/api.py (the JSON API
variant).  Same slope and classification, but the non-empty branch
returns only the keys trend, avg_mood, message and data_points. -/
def api_analyze_mood_trends (moods : List ℚ) : TrendResult :=
  if moods = [] then
    { trend := "neutral"
      mood_level := none
      avg_mood := none
      message := "Start logging your mood to get personalized insights!"
      additional_message := none
      recommendations := some ["Log your daily mood", "Write in your journal",
        "Try breathing exercises"]
      data_points := none }
  else
    let avg_mood := moods.sum / (moods.length : ℚ)
    let slope := trend_slope moods avg_mood
    let tm : String × String :=
      if slope > 1/2 then
        ("improving", "Your mood has been trending upward! Keep up the great work.")
      else if slope < -(1/2) then
        ("declining", "Your mood has been trending downward. Consider reaching out for support.")
      else
        ("stable", "Your mood has been relatively stable. This is a good foundation to build upon.")
    { trend := tm.1
      mood_level := none
      avg_mood := some (round1 avg_mood)
      message := tm.2
      additional_message := none
      recommendations := none
      data_points := some moods.length }

/-- The trend classification inside the `ai_mood_prediction` view
(src/dashboard/views.py lines 366-379).  Its input is the view's
`mood_values` list, which the view builds from
`order_by('-date')[:14]`, i.e. MOST RECENT FIRST.  A label is only
computed when at least 7 values are available. -/
def ai_mood_prediction_trend (mood_values : List ℚ) : Option String :=
  if 7 ≤ mood_values.length then
    let first_half :=
      (mood_values.take (mood_values.length / 2)).sum
        / ((mood_values.take (mood_values.length / 2)).length : ℚ)
    let second_half :=
      (mood_values.drop (mood_values.length / 2)).sum
        / ((mood_values.drop (mood_values.length / 2)).length : ℚ)
    if first_half < second_half then some "improving"
    else if second_half < first_half then some "declining"
    else some "stable"
  else none

/-- `generate_ai_recommendations(avg_mood, trend, user)` from
src/dashboard/views.py, as a function of the average mood, the trend
label and the user's journal-entry count.  `game_sessions` is the
source's hardcoded 0. -/
def generate_ai_recommendations (avg_mood : ℚ) (trend : String)
    (journal_count : ℕ) : List String :=
  let recommendations : List String :=
    if avg_mood < 4 then
      ["Consider speaking with a mental health professional",
       "Try daily gratitude journaling to shift perspective",
       "Practice deep breathing exercises for 5 minutes daily",
       "Reach out to trusted friends or family for support"]
    else if avg_mood < 6 then
      ["Continue with your current wellness activities",
       "Try adding mindfulness meditation to your routine",
       "Consider light exercise like walking",
       "Track your sleep patterns for better rest"]
    else
      ["Great job maintaining positive mental health!",
       "Consider helping others by sharing your coping strategies",
       "Try advanced mindfulness techniques",
       "Continue your current healthy habits"]
  let recommendations :=
    if trend = "declining" then
      "⚠️ URGENT: Your mood trend suggests you may need additional support"
        :: "Consider contacting a healthcare provider soon"
        :: recommendations
    else recommendations
  let recommendations :=
    if journal_count < 5 then
      recommendations ++ ["Try journaling more frequently to process your emotions"]
    else recommendations
  let game_sessions : ℕ := 0
  let recommendations :=
    if game_sessions < 3 then
      recommendations ++ ["Engage with our wellness games for stress relief"]
    else recommendations
  recommendations.take 5

/-- The result record of `predict_next_week_mood`.  The empty-history
branch returns no `avg_predicted` key, hence the `Option`. -/
structure WeeklyPrediction where
  prediction : String
  confidence : String
  message : String
  weekly_forecast : List ℚ
  avg_predicted : Option ℚ
deriving DecidableEq, Repr

/-- `predict_next_week_mood(user)` from src/dashboard/views.py, as a
function of the chronological mood values of the last 14 days.  The
slope denominator `sum((x - mean_x)**2)` is non-zero whenever the guard
`len(mood_values) > 1` holds, so plain division is faithful there. -/
def predict_next_week_mood (mood_values : List ℚ) : WeeklyPrediction :=
  if mood_values = [] then
    { prediction := "neutral"
      confidence := "low"
      message := "Need more mood data for accurate predictions"
      weekly_forecast := [5, 5, 5, 5, 5, 5, 5]
      avg_predicted := none }
  else
    let n := mood_values.length
    let avg_mood := mood_values.sum / (n : ℚ)
    let slope : ℚ :=
      if 1 < n then
        let xbar : ℚ := sum_x n / (n : ℚ)
        (((List.zip (List.range n) mood_values).map
            (fun p => ((p.1 : ℚ) - xbar) * (p.2 - avg_mood))).sum)
          / (((List.range n).map (fun (x : ℕ) => ((x : ℚ) - xbar) ^ 2)).sum)
      else 0
    let base_mood := (mood_values.getLast?).getD 5
    let weekly_forecast := (List.range 7).map
      (fun (i : ℕ) => round1 (min 10 (max 1 (base_mood + slope * ((i : ℚ) + 1) * (1/10)))))
    let avg_predicted := weekly_forecast.sum / (weekly_forecast.length : ℚ)
    let pm : String × String :=
      if 7 ≤ avg_predicted then
        ("positive", "Your mood trend suggests a positive week ahead!")
      else if 4 ≤ avg_predicted then
        ("stable", "Your mood is likely to remain stable this week.")
      else
        ("challenging", "You might face some challenging days. Consider reaching out for support.")
    let confidence :=
      if 7 ≤ n then "high" else if 3 ≤ n then "medium" else "low"
    { prediction := pm.1
      confidence := confidence
      message := pm.2
      weekly_forecast := weekly_forecast
      avg_predicted := some (round1 avg_predicted) }

/-- One step budget of the backwards walk in `calculate_streak`.  The
Python loop is unbounded; it terminates because the user's entry-day set
is finite.  `streakAux` carries explicit fuel, and `calculate_streak`
supplies fuel that provably exceeds any reachable streak. -/
def streakAux (dates : List ℤ) (check_date : ℤ) : ℕ → ℕ
  | 0 => 0
  | fuel + 1 =>
    if check_date ∈ dates then streakAux dates (check_date - 1) fuel + 1
    else 0

/-- `calculate_streak(user)` from src/dashboard/views.py (and the
identical helper in src/dashboard/api.py), as a function of the list of
days carrying at least one mood entry (one integer day number per entry)
and of the current day. -/
def calculate_streak (dates : List ℤ) (today : ℤ) : ℕ :=
  streakAux dates today (dates.length + 1)

/-- An `Achievement` row (src/dashboard/models.py): title, description
and points, for a fixed user. -/
structure Achievement where
  title : String
  description : String
  points : ℕ
deriving DecidableEq, Repr

/-- `Achievement.objects.filter(user=user, title=t).exists()`. -/
def hasTitle (achs : List Achievement) (t : String) : Bool :=
  achs.any (fun a => a.title = t)

/-- Number of achievements of a given title held by the user. -/
def countTitle (achs : List Achievement) (t : String) : ℕ :=
  (achs.filter (fun a => a.title = t)).length

/-- `check_achievements(user)` from src/dashboard/views.py, as a state
transition on one user's achievement list given that user's mood-entry
count.  The Monthly Master existence check runs against the store as it
stands after the possible Week Warrior insert, exactly as the source
re-queries the database. -/
def check_achievements (mood_count : ℕ) (achs : List Achievement) :
    List Achievement :=
  let achs1 :=
    if 7 ≤ mood_count ∧ ¬ hasTitle achs "Week Warrior" then
      achs ++ [⟨"Week Warrior", "Logged mood for 7 days!", 10⟩]
    else achs
  let achs2 :=
    if 30 ≤ mood_count ∧ ¬ hasTitle achs1 "Monthly Master" then
      achs1 ++ [⟨"Monthly Master", "Logged mood for 30 days!", 50⟩]
    else achs1
  achs2

/-! ### Helper lemmas -/

lemma le_roundHalfEven {a : ℤ} {q : ℚ} (h : (a : ℚ) ≤ q) :
    a ≤ roundHalfEven q := by
  have hf : a ≤ ⌊q⌋ := Int.le_floor.mpr h
  simp only [roundHalfEven]
  split_ifs <;> omega

lemma roundHalfEven_le {a : ℤ} {q : ℚ} (h : q ≤ (a : ℚ)) :
    roundHalfEven q ≤ a := by
  have hfl : (⌊q⌋ : ℚ) ≤ q := Int.floor_le q
  have hfa : ⌊q⌋ ≤ a := by exact_mod_cast hfl.trans h
  simp only [roundHalfEven]
  split_ifs with h1 h2 h3
  · exact hfa
  · have hlt : (⌊q⌋ : ℚ) < q := by
      have : (0 : ℚ) < q - ⌊q⌋ := by linarith
      linarith
    have : ⌊q⌋ < a := by exact_mod_cast hlt.trans_le h
    omega
  · exact hfa
  · have hlt : (⌊q⌋ : ℚ) < q := by
      have hge : (1 : ℚ)/2 ≤ q - ⌊q⌋ := by linarith
      linarith
    have : ⌊q⌋ < a := by exact_mod_cast hlt.trans_le h
    omega

lemma round1_mem {z : ℚ} (h1 : 1 ≤ z) (h10 : z ≤ 10) :
    1 ≤ round1 z ∧ round1 z ≤ 10 := by
  have hlo : (10 : ℤ) ≤ roundHalfEven (10 * z) :=
    le_roundHalfEven (by push_cast; linarith)
  have hhi : roundHalfEven (10 * z) ≤ (100 : ℤ) :=
    roundHalfEven_le (by push_cast; linarith)
  have hlo' : (10 : ℚ) ≤ (roundHalfEven (10 * z) : ℚ) := by exact_mod_cast hlo
  have hhi' : (roundHalfEven (10 * z) : ℚ) ≤ 100 := by exact_mod_cast hhi
  unfold round1
  constructor <;> [linarith; linarith]

lemma clamp_min_max_mem (z : ℚ) :
    1 ≤ min 10 (max 1 z) ∧ min 10 (max 1 z) ≤ 10 :=
  ⟨le_min (by norm_num) (le_max_left 1 z), min_le_left 10 _⟩

lemma clamp_max_min_mem (z : ℚ) :
    1 ≤ max 1 (min 10 z) ∧ max 1 (min 10 z) ≤ 10 :=
  ⟨le_max_left 1 _, max_le (by norm_num) (min_le_left 10 z)⟩

lemma list_sum_le_length_mul (l : List ℚ) (b : ℚ) (h : ∀ x ∈ l, x ≤ b) :
    l.sum ≤ (l.length : ℚ) * b := by
  induction l with
  | nil => simp
  | cons a t ih =>
    have ha : a ≤ b := h a (List.mem_cons_self a t)
    have ht := ih (fun x hx => h x (List.mem_cons_of_mem a hx))
    simp only [List.sum_cons, List.length_cons]
    push_cast
    linarith

lemma length_mul_le_list_sum (l : List ℚ) (b : ℚ) (h : ∀ x ∈ l, b ≤ x) :
    (l.length : ℚ) * b ≤ l.sum := by
  induction l with
  | nil => simp
  | cons a t ih =>
    have ha : b ≤ a := h a (List.mem_cons_self a t)
    have ht := ih (fun x hx => h x (List.mem_cons_of_mem a hx))
    simp only [List.sum_cons, List.length_cons]
    push_cast
    linarith

lemma mean_mem {l : List ℚ} (hne : l ≠ [])
    (h : ∀ x ∈ l, 1 ≤ x ∧ x ≤ 10) :
    1 ≤ l.sum / (l.length : ℚ) ∧ l.sum / (l.length : ℚ) ≤ 10 := by
  have hlen : 0 < l.length := List.length_pos.mpr hne
  have hlen' : (0 : ℚ) < (l.length : ℚ) := by exact_mod_cast hlen
  have hlo := length_mul_le_list_sum l 1 (fun x hx => (h x hx).1)
  have hhi := list_sum_le_length_mul l 10 (fun x hx => (h x hx).2)
  constructor
  · rw [le_div_iff₀ hlen']
    linarith
  · rw [div_le_iff₀ hlen']
    linarith

lemma sum_x_two_mul (n : ℕ) : 2 * sum_x n = (n : ℚ) * ((n : ℚ) - 1) := by
  induction n with
  | zero => simp [sum_x]
  | succ m ih =>
    have hs : sum_x (m + 1) = sum_x m + m := by
      simp [sum_x, List.range_succ]
    rw [hs]
    push_cast
    push_cast at ih
    linarith

lemma sum_xx_six_mul (n : ℕ) :
    6 * sum_xx n = (n : ℚ) * ((n : ℚ) - 1) * (2 * (n : ℚ) - 1) := by
  induction n with
  | zero => simp [sum_xx]
  | succ m ih =>
    have hs : sum_xx (m + 1) = sum_xx m + (m : ℚ) * m := by
      simp [sum_xx, List.range_succ]
    rw [hs]
    push_cast
    push_cast at ih
    nlinarith

lemma olsDenom_twelve (n : ℕ) :
    12 * olsDenom n = (n : ℚ) * n * ((n : ℚ) - 1) * ((n : ℚ) + 1) := by
  have h1 := sum_x_two_mul n
  have h2 := sum_xx_six_mul n
  unfold olsDenom
  linear_combination (2 * (n : ℚ)) * h2
    - 3 * (2 * sum_x n + (n : ℚ) * ((n : ℚ) - 1)) * h1

lemma olsDenom_pos {n : ℕ} (h : 3 ≤ n) : 0 < olsDenom n := by
  have h12 := olsDenom_twelve n
  have hN : (3 : ℚ) ≤ (n : ℚ) := by exact_mod_cast h
  have ha : (0 : ℚ) < (n : ℚ) := by linarith
  have hb : (0 : ℚ) < (n : ℚ) - 1 := by linarith
  have hc : (0 : ℚ) < (n : ℚ) + 1 := by linarith
  have hpos : 0 < (n : ℚ) * n * ((n : ℚ) - 1) * ((n : ℚ) + 1) :=
    mul_pos (mul_pos (mul_pos ha ha) hb) hc
  linarith

/-! ### Streak lemmas -/

lemma streakAux_mem (dates : List ℤ) :
    ∀ (fuel : ℕ) (d : ℤ) (j : ℕ), j < streakAux dates d fuel →
      (d - (j : ℤ)) ∈ dates := by
  intro fuel
  induction fuel with
  | zero => intro d j hj; simp [streakAux] at hj
  | succ f ih =>
    intro d j hj
    by_cases hc : d ∈ dates
    · rw [streakAux, if_pos hc] at hj
      cases j with
      | zero => simpa using hc
      | succ k =>
        have hk : k < streakAux dates (d - 1) f := by omega
        have hmem := ih (d - 1) k hk
        have heq : d - 1 - (k : ℤ) = d - ((k : ℤ) + 1) := by ring
        rw [heq] at hmem
        push_cast
        exact hmem
    · rw [streakAux, if_neg hc] at hj
      omega

lemma streakAux_stop (dates : List ℤ) :
    ∀ (fuel : ℕ) (d : ℤ), streakAux dates d fuel < fuel →
      (d - (streakAux dates d fuel : ℤ)) ∉ dates := by
  intro fuel
  induction fuel with
  | zero => intro d h; omega
  | succ f ih =>
    intro d h
    by_cases hc : d ∈ dates
    · rw [streakAux, if_pos hc] at h ⊢
      have hlt : streakAux dates (d - 1) f < f := by omega
      have hstop := ih (d - 1) hlt
      have heq : d - 1 - (streakAux dates (d - 1) f : ℤ)
          = d - ((streakAux dates (d - 1) f : ℤ) + 1) := by ring
      rw [heq] at hstop
      push_cast
      exact hstop
    · rw [streakAux, if_neg hc]
      simpa using hc

lemma streakAux_le_card (dates : List ℤ) (fuel : ℕ) (d : ℤ) :
    streakAux dates d fuel ≤ dates.toFinset.card := by
  classical
  have hmap : ∀ j ∈ Finset.range (streakAux dates d fuel),
      (fun j : ℕ => d - (j : ℤ)) j ∈ dates.toFinset := by
    intro j hj
    rw [Finset.mem_range] at hj
    rw [List.mem_toFinset]
    exact streakAux_mem dates fuel d j hj
  have hinj : Set.InjOn (fun j : ℕ => d - (j : ℤ))
      (Finset.range (streakAux dates d fuel)) := by
    intro a _ b _ hab
    simp only at hab
    have : (a : ℤ) = (b : ℤ) := by omega
    exact_mod_cast this
  have hcard := Finset.card_le_card_of_injOn _ hmap hinj
  simpa using hcard

/-! ### Prediction lemmas -/

lemma predict_next_mood_short {mv : List ℚ} (hne : mv ≠ [])
    (h3 : mv.length < 3) :
    predict_next_mood mv = some (mv.sum / (mv.length : ℚ)) := by
  have hlen : (mv.length : ℚ) ≠ 0 := by
    have := List.length_pos.mpr hne
    positivity
  simp [predict_next_mood, h3, qdiv?, hlen]

lemma predict_next_mood_long {mv : List ℚ} (h3 : 3 ≤ mv.length) :
    ∃ v, predict_next_mood mv = some v ∧ 1 ≤ v ∧ v ≤ 10 := by
  have hd : olsDenom mv.length ≠ 0 := (olsDenom_pos h3).ne'
  have hn : ((mv.length : ℕ) : ℚ) ≠ 0 := by
    have : 0 < mv.length := by omega
    positivity
  have hlt : ¬ mv.length < 3 := by omega
  simp only [predict_next_mood, if_neg hlt, qdiv?, if_neg hd, if_neg hn]
  exact ⟨_, rfl, clamp_max_min_mem _⟩

/-! ### Achievement lemmas -/

lemma hasTitle_append (l : List Achievement) (a : Achievement) (t : String) :
    hasTitle (l ++ [a]) t = (hasTitle l t || decide (a.title = t)) := by
  simp [hasTitle]

lemma countTitle_append (l : List Achievement) (a : Achievement) (t : String) :
    countTitle (l ++ [a]) t
      = countTitle l t + (if a.title = t then 1 else 0) := by
  simp only [countTitle, List.filter_append, List.length_append]
  split_ifs with h <;> simp [h]

lemma countTitle_eq_zero {l : List Achievement} {t : String}
    (h : ¬ hasTitle l t) : countTitle l t = 0 := by
  simp only [hasTitle, List.any_eq_true, not_exists, not_and] at h
  simp only [countTitle, List.length_eq_zero, List.filter_eq_nil_iff]
  intro a ha
  simpa using fun he => by simpa [he] using h a ha

/-! ### Claim theorems -/

/-- C1: evaluation of the code at a failing input.  For the chronological
history 1,2,3,4,5,6,7,8 the half-split slope is 4, so the claimed
thresholds demand the label "improving" — and `analyze_mood_trends`
(both variants share `trend_slope`) indeed yields "improving" — but the
`ai_mood_prediction` view, which receives this history most-recent-first
from `order_by('-date')` and classifies by a bare comparison of the half
averages (threshold 0, not ±0.5), labels the same history "declining".
The short-history conjuncts record that sequences of fewer than 3 points
get slope 0 and label "stable" in `analyze_mood_trends`. -/
theorem ai_trend_contradicts_thresholds :
    trend_slope [1, 2, 3, 4, 5, 6, 7, 8] ((36 : ℚ) / 8) = 4 ∧
    (analyze_mood_trends [1, 2, 3, 4, 5, 6, 7, 8]).trend = "improving" ∧
    ai_mood_prediction_trend (List.reverse [1, 2, 3, 4, 5, 6, 7, 8])
      = some "declining" ∧
    trend_slope [3, 9] 6 = 0 ∧
    (analyze_mood_trends [3, 9]).trend = "stable" := by
  refine ⟨?_, ?_, ?_, ?_, ?_⟩ <;>
    norm_num [trend_slope, analyze_mood_trends, ai_mood_prediction_trend,
      List.sum_cons, List.cons_ne_nil]

/-- C2 counterexample: `predict_next_mood` applied to the empty list is
not guarded — Python evaluates `sum([]) / len([])` and raises
`ZeroDivisionError` (modelled as `none`), rather than returning a
neutral default value. -/
theorem predict_next_mood_empty_unguarded : predict_next_mood [] = none := by
  decide

/-- C2 (amended): the analytics entry points with an explicit empty-history
guard — `analyze_mood_trends` (both variants), `predict_next_week_mood`
and `calculate_prediction_confidence` — return fixed neutral/default
structures on an empty mood history; `predict_next_mood`, however,
divides by zero on the empty list (its only caller always passes at
least 7 values). -/
theorem empty_history_defaults :
    analyze_mood_trends [] =
      { trend := "neutral", mood_level := none, avg_mood := none
        message := "Start logging your mood to get personalized insights!"
        additional_message := none
        recommendations := some ["Log your daily mood", "Write in your journal",
          "Try breathing exercises"]
        data_points := none } ∧
    api_analyze_mood_trends [] =
      { trend := "neutral", mood_level := none, avg_mood := none
        message := "Start logging your mood to get personalized insights!"
        additional_message := none
        recommendations := some ["Log your daily mood", "Write in your journal",
          "Try breathing exercises"]
        data_points := none } ∧
    predict_next_week_mood [] =
      { prediction := "neutral", confidence := "low"
        message := "Need more mood data for accurate predictions"
        weekly_forecast := [5, 5, 5, 5, 5, 5, 5], avg_predicted := none } ∧
    calculate_prediction_confidence [] = "Low" ∧
    predict_next_mood [] = none := by
  exact ⟨rfl, rfl, rfl, rfl, by decide⟩

/-- C6: with no mood entries in the 14-day window the weekly forecaster
returns exactly the flat neutral forecast of seven 5s, confidence "low"
and the data-insufficiency message. -/
theorem predict_next_week_mood_empty :
    predict_next_week_mood [] =
      { prediction := "neutral", confidence := "low"
        message := "Need more mood data for accurate predictions"
        weekly_forecast := [5, 5, 5, 5, 5, 5, 5], avg_predicted := none } := rfl

/-- C9 counterexample: the empty-history result of the dashboard trend
analysis has neither an `avg_mood` nor a `data_points` field, and the
non-empty result of the JSON API variant has no `recommendations`
field — so not every result record carries all five claimed fields. -/
theorem trend_result_missing_fields :
    (analyze_mood_trends []).avg_mood = none ∧
    (analyze_mood_trends []).data_points = none ∧
    (api_analyze_mood_trends [5, 6, 7]).recommendations = none := by
  refine ⟨rfl, rfl, by decide⟩

/-- C9 (amended): on a non-empty history the dashboard variant's record
carries all five fields (plus `mood_level` and `additional_message`),
while the API variant carries `trend`, `avg_mood`, `message` and
`data_points` but no `recommendations`; on an empty history both
variants return only `trend`, `message` and `recommendations`. -/
theorem trend_result_fields_amended (moods : List ℚ) (h : moods ≠ []) :
    ((analyze_mood_trends moods).avg_mood.isSome ∧
     (analyze_mood_trends moods).data_points.isSome ∧
     (analyze_mood_trends moods).recommendations.isSome ∧
     (analyze_mood_trends moods).mood_level.isSome ∧
     (analyze_mood_trends moods).additional_message.isSome) ∧
    ((api_analyze_mood_trends moods).avg_mood.isSome ∧
     (api_analyze_mood_trends moods).data_points.isSome ∧
     (api_analyze_mood_trends moods).recommendations = none) ∧
    ((analyze_mood_trends []).avg_mood = none ∧
     (analyze_mood_trends []).data_points = none ∧
     (api_analyze_mood_trends []).avg_mood = none ∧
     (api_analyze_mood_trends []).data_points = none) := by
  refine ⟨?_, ?_, by decide⟩ <;>
    simp [analyze_mood_trends, api_analyze_mood_trends, h]

/-- C9 witness: the amended statement applied to the one-entry history. -/
theorem trend_result_fields_amended_witness :
    (api_analyze_mood_trends [5]).recommendations = none :=
  (trend_result_fields_amended [5] (by decide)).2.1.2.2

/-- C3: for every non-empty mood history with values in [1, 10],
`predict_next_mood` succeeds with a value in [1, 10] (the short branch
returns the mean of in-range values, the regression branch clamps), and
the weekly forecaster returns 7 values, each clamped to [1, 10]
regardless of input extremity. -/
theorem forecast_values_in_range (mv : List ℚ) (hne : mv ≠ [])
    (hm : ∀ x ∈ mv, 1 ≤ x ∧ x ≤ 10) :
    (∃ v, predict_next_mood mv = some v ∧ 1 ≤ v ∧ v ≤ 10) ∧
    (predict_next_week_mood mv).weekly_forecast.length = 7 ∧
    (∀ y ∈ (predict_next_week_mood mv).weekly_forecast, 1 ≤ y ∧ y ≤ 10) := by
  refine ⟨?_, ?_, ?_⟩
  · by_cases h3 : mv.length < 3
    · exact ⟨_, predict_next_mood_short hne h3, mean_mem hne hm⟩
    · exact predict_next_mood_long (by omega)
  · simp only [predict_next_week_mood, if_neg hne]
    rw [List.length_map, List.length_range]
  · intro y hy
    simp only [predict_next_week_mood, if_neg hne, List.mem_map,
      List.mem_range] at hy
    obtain ⟨i, _, rfl⟩ := hy
    exact round1_mem (clamp_min_max_mem _).1 (clamp_min_max_mem _).2

/-- C3 witness: the flat five-entry history. -/
theorem forecast_values_in_range_witness :
    (([5, 5, 5, 5, 5] : List ℚ) ≠ []) ∧
    (∃ v, predict_next_mood [5, 5, 5, 5, 5] = some v ∧ 1 ≤ v ∧ v ≤ 10) :=
  ⟨by decide, (forecast_values_in_range [5, 5, 5, 5, 5] (by decide)
    (by norm_num)).1⟩

/-- C4: the recommendation list never exceeds 5 entries, and for a
declining trend the two urgent-support messages occupy positions 0 and 1
(they are inserted in front, and the bucket below them always has 4
entries, so truncation to 5 cannot remove them). -/
theorem recommendations_at_most_five (avg_mood : ℚ) (trend : String)
    (journal_count : ℕ) :
    (generate_ai_recommendations avg_mood trend journal_count).length ≤ 5 ∧
    (trend = "declining" →
      (generate_ai_recommendations avg_mood trend journal_count).take 2 =
        ["⚠️ URGENT: Your mood trend suggests you may need additional support",
         "Consider contacting a healthcare provider soon"]) := by
  constructor
  · exact List.length_take_le 5 _
  · intro ht
    subst ht
    simp only [generate_ai_recommendations]
    split_ifs <;> simp_all

/-- C4 witness: a declining trend at average mood 3 with no journal
entries. -/
theorem recommendations_at_most_five_witness :
    (generate_ai_recommendations 3 "declining" 0).take 2 =
      ["⚠️ URGENT: Your mood trend suggests you may need additional support",
       "Consider contacting a healthcare provider soon"] :=
  (recommendations_at_most_five 3 "declining" 0).2 rfl

/-- C10: the recommendation list always has exactly 5 entries: each mood
bucket contributes 4, and since `game_sessions` is hardcoded to 0 the
wellness-games entry is always appended, so the pre-truncation list has
at least 5 entries and the final `[:5]` yields exactly 5. -/
theorem recommendations_exactly_five (avg_mood : ℚ) (trend : String)
    (journal_count : ℕ) :
    (generate_ai_recommendations avg_mood trend journal_count).length = 5 := by
  simp only [generate_ai_recommendations]
  split_ifs <;> simp [List.length_take] <;> omega

/-- C5: the streak calculator (identical in src/dashboard/views.py and
src/dashboard/api.py) returns the count of consecutive calendar days
ending at today that each carry at least one entry: every day within the
streak has an entry, the day just past the streak has none (the walk
stops at the first empty day), no entry today gives streak 0, and the
documented example — entries today, yesterday and 3 days ago with a gap
on the day before yesterday — gives streak 2. -/
theorem calculate_streak_spec (dates : List ℤ) (today : ℤ) :
    (∀ j : ℕ, j < calculate_streak dates today → (today - (j : ℤ)) ∈ dates) ∧
    (today - (calculate_streak dates today : ℤ)) ∉ dates ∧
    (today ∉ dates → calculate_streak dates today = 0) ∧
    calculate_streak [0, -1, -3] 0 = 2 := by
  refine ⟨?_, ?_, ?_, ?_⟩
  · intro j hj
    exact streakAux_mem dates (dates.length + 1) today j hj
  · have hle : streakAux dates today (dates.length + 1) ≤ dates.toFinset.card :=
      streakAux_le_card dates (dates.length + 1) today
    have hcard : dates.toFinset.card ≤ dates.length := dates.toFinset_card_le
    exact streakAux_stop dates (dates.length + 1) today (by omega)
  · intro h
    simp [calculate_streak, streakAux, h]
  · decide

/-- C5 witness: a history with no entry today. -/
theorem calculate_streak_spec_witness :
    ((0 : ℤ) ∉ ([5] : List ℤ)) ∧ calculate_streak [5] 0 = 0 :=
  ⟨by decide, (calculate_streak_spec [5] 0).2.2.1 (by decide)⟩

lemma countTitle_append_le {l : List Achievement} {a : Achievement}
    {t : String} (h : ¬ hasTitle l a.title) (hle : countTitle l t ≤ 1) :
    countTitle (l ++ [a]) t ≤ 1 := by
  rw [countTitle_append]
  split_ifs with he
  · have h0 : countTitle l t = 0 := countTitle_eq_zero (he ▸ h)
    omega
  · omega

lemma countTitle_check_le (c : ℕ) (achs : List Achievement) (t : String)
    (h : countTitle achs t ≤ 1) :
    countTitle (check_achievements c achs) t ≤ 1 := by
  simp only [check_achievements]
  split_ifs with h1 h2 h3
  · exact countTitle_append_le h2.2 (countTitle_append_le h1.2 h)
  · exact countTitle_append_le h1.2 h
  · exact countTitle_append_le h3.2 h
  · exact h

lemma check_achievements_hasTitles (c : ℕ) (achs : List Achievement) :
    (7 ≤ c → hasTitle (check_achievements c achs) "Week Warrior" = true) ∧
    (30 ≤ c → hasTitle (check_achievements c achs) "Monthly Master" = true) := by
  simp only [check_achievements]
  split_ifs with h1 h2 h3 <;> constructor <;> intro hc <;>
    simp_all [hasTitle, List.any_append]

lemma check_achievements_fixed (c : ℕ) (l : List Achievement)
    (hW : 7 ≤ c → hasTitle l "Week Warrior" = true)
    (hM : 30 ≤ c → hasTitle l "Monthly Master" = true) :
    check_achievements c l = l := by
  simp only [check_achievements]
  split_ifs with h1 h2 h3 <;> simp_all

/-- C7: the achievement rule check is idempotent — running it a second
time on the state it produced changes nothing, so the "Week Warrior"
achievement is created at most once (the duplication guard is the
(user, title) existence check); and if the store starts with at most one
achievement of a given title, it still has at most one afterwards. -/
theorem check_achievements_idempotent (mood_count : ℕ)
    (achs : List Achievement) :
    check_achievements mood_count (check_achievements mood_count achs)
      = check_achievements mood_count achs ∧
    (countTitle achs "Week Warrior" ≤ 1 →
      countTitle (check_achievements mood_count achs) "Week Warrior" ≤ 1) ∧
    (countTitle achs "Monthly Master" ≤ 1 →
      countTitle (check_achievements mood_count achs) "Monthly Master" ≤ 1) :=
  ⟨check_achievements_fixed mood_count _
      (check_achievements_hasTitles mood_count achs).1
      (check_achievements_hasTitles mood_count achs).2,
    countTitle_check_le mood_count achs "Week Warrior",
    countTitle_check_le mood_count achs "Monthly Master"⟩

/-- C7 witness: running the check on the 7th entry with an empty store. -/
theorem check_achievements_idempotent_witness :
    countTitle (check_achievements 7 []) "Week Warrior" ≤ 1 :=
  (check_achievements_idempotent 7 []).2.1 (by decide)

/-- C8: for histories of length at least 3 the OLS denominator
`n * sum_xx - sum_x * sum_x` over the distinct indices 0..n-1 is
non-zero (it equals `n^2 (n-1)(n+1) / 12`), and the divisor `n` of the
intercept is non-zero as well, so the regression branch of
`predict_next_mood` performs no division by zero and returns a value. -/
theorem ols_denominator_nonzero (mv : List ℚ) (h : 3 ≤ mv.length) :
    olsDenom mv.length ≠ 0 ∧ ((mv.length : ℚ) ≠ 0) ∧
    (predict_next_mood mv).isSome := by
  refine ⟨(olsDenom_pos h).ne', ?_, ?_⟩
  · have : 0 < mv.length := by omega
    positivity
  · obtain ⟨v, hv, -, -⟩ := predict_next_mood_long h
    simp [hv]

/-- C8 witness: the three-entry history 1, 2, 3. -/
theorem ols_denominator_nonzero_witness :
    olsDenom ([1, 2, 3] : List ℚ).length ≠ 0 ∧
    (predict_next_mood ([1, 2, 3] : List ℚ)).isSome :=
  ⟨(ols_denominator_nonzero [1, 2, 3] (by decide)).1,
   (ols_denominator_nonzero [1, 2, 3] (by decide)).2.2⟩

end Vyze
